import Mathlib

/-!
Verification development for the Chapter05 data-visualization SPA
(`src/Chapter05.jsx`): the embedded-runtime execution pipeline
(`loadPyodideOnce`, `usePyRunner.ensureReady`, `usePyRunner.run` with its
inline output parsing) and the clipboard utility (`safeCopyText`).

JavaScript strings are embedded as `List Char`; the JS string operations
used by the source (`split(/\n/)`, `startsWith`, `replace(str, str)` which
replaces the first occurrence, `trim`) are given as executable Lean
functions over character lists.
-/

namespace Chapter05

/-- A JavaScript string, embedded as its list of characters. -/
abbrev JSStr := List Char

/-- `String.prototype.trim()`: strip leading and trailing whitespace. -/
def jsTrim (s : JSStr) : JSStr :=
  ((s.dropWhile Char.isWhitespace).reverse.dropWhile Char.isWhitespace).reverse

/-- `String.prototype.split` on a single separator character, as in
`String(out).split(/\n/)` in `run`: JS yields `[""]` on the empty string and
keeps empty fields, including a trailing one. -/
def jsSplitOn (c : Char) : JSStr → List JSStr
  | [] => [[]]
  | x :: xs =>
    let r := jsSplitOn c xs
    if x = c then [] :: r
    else
      match r with
      | [] => [[x]]
      | y :: ys => (x :: y) :: ys

/-- `String.prototype.replace(pat, rep)` with a string pattern: replaces only
the first occurrence of `pat` (JS semantics), or returns the string unchanged
when `pat` does not occur. -/
def jsReplaceFirst (pat rep : JSStr) : JSStr → JSStr
  | [] => if pat.isPrefixOf ([] : JSStr) then rep else []
  | x :: xs =>
    if pat.isPrefixOf (x :: xs) then rep ++ (x :: xs).drop pat.length
    else x :: jsReplaceFirst pat rep xs

/-- The sentinel marking an image record in the captured stdout stream:
the instrumentation's `_capture_show` prints `'__IMG__' + b64`. -/
def sentinel : JSStr := "__IMG__".data

/-- `line.startsWith("__IMG__")` from `run`'s parsing loop. -/
def startsWithSentinel (line : JSStr) : Bool :=
  sentinel.isPrefixOf line

/-- The constant part of the data URL built for each image record:
`` `data:image/png;base64,${b64}` `` in `run`. -/
def dataUrlPng : JSStr := "data:image/png;base64,".data

/-- One iteration of `run`'s parsing loop (source lines 203–210): a sentinel
line is pushed to `images` as a PNG data URL with the sentinel stripped
(`line.replace("__IMG__", "")`); otherwise a line whose trimmed form is
non-empty is appended to `text` followed by a newline; all other lines are
dropped. The accumulator is the pair `(images, text)`. -/
def parseStep (acc : List JSStr × JSStr) (line : JSStr) : List JSStr × JSStr :=
  if startsWithSentinel line then
    (acc.1 ++ [dataUrlPng ++ jsReplaceFirst sentinel [] line], acc.2)
  else if (jsTrim line).length != 0 then
    (acc.1, acc.2 ++ line ++ ['\n'])
  else
    acc

/-- The output-parsing phase of `run` (source lines 197–210): split the raw
captured stdout on newlines and fold the parsing loop over the lines,
starting from empty `images` and `text`. -/
def parseOutput (raw : JSStr) : List JSStr × JSStr :=
  (jsSplitOn '\n' raw).foldl parseStep ([], [])

/-- The object `run` returns: `{ images, text }` on success (no `error`
field, embedded as `error = none`) or `{ images: [], text: "", error }` on a
guest exception. -/
structure ExecutionResult where
  images : List JSStr
  text : JSStr
  error : Option JSStr
deriving DecidableEq, Repr

/-- Outcome of awaiting `py.runPythonAsync(header + code + footer)`: the
guest either returns the captured-stdout string, or raises. A raised guest
exception carries the output buffered before the failure point — which the
JavaScript catch block has no access to — and the exception message
(`String(e?.message || e)` is embedded as the message string itself). -/
inductive ExecOutcome where
  | returns (out : JSStr)
  | raises (buffered : JSStr) (message : JSStr)
deriving DecidableEq, Repr

/-- What `run(code)` does from its caller's point of view: either it returns
an `ExecutionResult`, or an exception propagates out of it. -/
inductive RunOutcome where
  | result (r : ExecutionResult)
  | thrown (message : JSStr)
deriving DecidableEq, Repr

/-- `true` exactly when the call returned a result rather than throwing. -/
def RunOutcome.isResult : RunOutcome → Bool
  | .result _ => true
  | .thrown _ => false

/-- `usePyRunner.run` (source lines 127–219). `load` is the outcome of
`await ensureReady()` — this await sits *before* the `try` block, so a load
failure (rethrown by `ensureReady`) propagates out of `run`. Inside the
`try`, a returned stdout string is parsed into `{ images, text }`; a guest
exception is caught and converted into `{ images: [], text: "", error }`.
The React state-setter calls (`setStatus`, `setErrMsg`) are modelled with
`ensureReady` below, not here. -/
def run (load : Except JSStr Unit) (exec : ExecOutcome) : RunOutcome :=
  match load with
  | .error e => .thrown e
  | .ok _ =>
    match exec with
    | .returns out =>
      let p := parseOutput out
      .result { images := p.1, text := p.2, error := none }
    | .raises _ msg => .result { images := [], text := [], error := some msg }

/-!
Loader model (`loadPyodideOnce`, source lines 70–101, and
`usePyRunner.ensureReady`, lines 111–125).

JavaScript is single-threaded: the synchronous body of `loadPyodideOnce` —
the `_pyodidePromise` null check and, when null, the creation and
memoization of the one initialization promise — runs atomically. The promise
body performs the bootstrap script fetch and the runtime boot; it runs once
per created promise. Promises are numbered by creation order, and `started`
counts how many initialization sequences have ever been started. Nothing in
the source ever resets `_pyodidePromise`, in particular not on rejection.
-/

/-- The module-level mutable state of the loader: `memo` is
`_pyodidePromise` (`none` = `null`, `some p` = the memoized promise `p`) and
`started` counts the initialization sequences ever started. -/
structure LoaderState where
  memo : Option Nat
  started : Nat
deriving DecidableEq, Repr

/-- Page-load state: `_pyodidePromise = null`, nothing started. -/
def initialLoader : LoaderState := { memo := none, started := 0 }

/-- The synchronous body of `loadPyodideOnce` (source lines 71–73, 99–100):
return the memoized promise if present, otherwise create, memoize and return
a fresh initialization promise (starting the one bootstrap-fetch and
runtime-boot sequence). Returns the new state and the promise the caller
will await. -/
def loadPyodideOnce (s : LoaderState) : LoaderState × Nat :=
  match s.memo with
  | some p => (s, p)
  | none => ({ memo := some s.started, started := s.started + 1 }, s.started)

/-- `n` interleaved calls to `loadPyodideOnce`: each caller's synchronous
body runs to completion before the next (single-threaded event loop), and
every caller then awaits the promise it was handed. Returns the final loader
state and, in call order, the promise each caller awaits. -/
def concurrentCalls : Nat → LoaderState × List Nat
  | 0 => (initialLoader, [])
  | n + 1 =>
    let (s, ids) := concurrentCalls n
    let (s2, p) := loadPyodideOnce s
    (s2, ids ++ [p])

/-- The `status` React state of `usePyRunner`. -/
inductive Status where
  | idle
  | loading
  | ready
  | running
  | error
deriving DecidableEq, Repr

/-- The per-hook state touched by `ensureReady`: `pyRef.current` (holding
the runtime handle once a load succeeded), `status` and `errMsg`. -/
structure Runner where
  pyRef : Option Nat
  status : Status
  errMsg : JSStr
deriving DecidableEq, Repr

/-- Initial hook state: `pyRef.current = null`, `status = "idle"`,
`errMsg = ""`. -/
def initialRunner : Runner := { pyRef := none, status := .idle, errMsg := [] }

/-- One complete `ensureReady()` call (source lines 111–125), run to
completion: if `pyRef.current` is set, return it untouched; otherwise set
status to loading, call `loadPyodideOnce` and await the promise it returns.
`initResult p` is the eventual settlement of promise `p` (a handle on
fulfillment, a message on rejection). On fulfillment the handle is stored in
`pyRef.current` and status becomes ready; on rejection `pyRef.current` stays
null, `errMsg` and `status = error` are set, and the error is rethrown
(the `Except.error` return value). -/
def ensureReady (initResult : Nat → Except JSStr Nat) (r : Runner)
    (ls : LoaderState) : Runner × LoaderState × Except JSStr Nat :=
  match r.pyRef with
  | some h => (r, ls, .ok h)
  | none =>
    let r1 : Runner := { r with status := .loading, errMsg := [] }
    let (ls2, p) := loadPyodideOnce ls
    match initResult p with
    | .ok h => ({ r1 with pyRef := some h, status := .ready }, ls2, .ok h)
    | .error e =>
      ({ r1 with status := .error, errMsg := e }, ls2, .error e)

/-- `n` sequential `ensureReady()` calls from page load, each awaited to
completion before the next begins. Returns the final hook state, the final
loader state, and each call's observed outcome in order. -/
def ensureReadySeq (initResult : Nat → Except JSStr Nat) :
    Nat → Runner × LoaderState × List (Except JSStr Nat)
  | 0 => (initialRunner, initialLoader, [])
  | n + 1 =>
    let (r, ls, outs) := ensureReadySeq initResult n
    let (r2, ls2, o) := ensureReady initResult r ls
    (r2, ls2, outs ++ [o])

/-- An initialization that always fails, e.g. the bootstrap `<script>` fetch
rejecting while offline. -/
def failingInit : Nat → Except JSStr Nat :=
  fun _ => .error ("ScriptError".data)

/-!
Clipboard model (`safeCopyText`, source lines 21–65).

The host environment determines which branches run: whether
`navigator.clipboard` exists in a secure context, whether
`navigator.clipboard.writeText` resolves or rejects, whether
`document.execCommand` is present, and — separately for the two fallback
strategies' invocations — whether `document.execCommand("copy")` throws and
what it returns. DOM element creation, style mutation, `appendChild`,
`select`, range and selection calls are modelled as non-throwing, which
matches their behavior on the arguments the source passes.
-/

/-- Host-environment behavior relevant to one `safeCopyText` call. -/
structure ClipboardEnv where
  hasClipboardApi : Bool
  writeTextResolves : Bool
  hasExecCommand : Bool
  exec2Throws : Bool
  exec2Returns : Bool
  exec3Throws : Bool
  exec3Returns : Bool
deriving DecidableEq, Repr

/-- Scaffolding elements still attached to `document.body` when
`safeCopyText` returns. -/
structure DomState where
  textareaAttached : Bool
  spanAttached : Bool
deriving DecidableEq, Repr

/-- The object `safeCopyText` resolves with: `{ ok, method }`, the method
being one of the source's literals `"navigator.clipboard"`, `"execCommand"`,
`"selection"`, `"blocked"`. -/
structure CopyResult where
  ok : Bool
  method : String
deriving DecidableEq, Repr

/-- Strategy 2 of `safeCopyText` (source lines 32–48): create the hidden
textarea, append it, select its contents, evaluate
`document.execCommand && document.execCommand("copy")`, remove the textarea,
and return on a truthy result. Yields `some` result when the strategy
returns, `none` when control falls through to strategy 3, paired with
whether the textarea is still attached afterwards — the `removeChild` on
line 44 is skipped when `execCommand("copy")` throws, the exception being
swallowed by the surrounding `catch`. -/
def legacyCopyStep (env : ClipboardEnv) : Option CopyResult × Bool :=
  if env.hasExecCommand then
    if env.exec2Throws then (none, true)
    else if env.exec2Returns then (some { ok := true, method := "execCommand" }, false)
    else (none, false)
  else (none, false)

/-- Strategy 3 of `safeCopyText` (source lines 50–63): create the span,
append it, select its rendered contents via the selection API, evaluate
`document.execCommand && document.execCommand("copy")`, clear the selection,
remove the span, and return on a truthy result. As in strategy 2, the
`removeChild` on line 61 is skipped when `execCommand("copy")` throws. -/
def selectionCopyStep (env : ClipboardEnv) : Option CopyResult × Bool :=
  if env.hasExecCommand then
    if env.exec3Throws then (none, true)
    else if env.exec3Returns then (some { ok := true, method := "selection" }, false)
    else (none, false)
  else (none, false)

/-- `safeCopyText` (source lines 21–65): try the async clipboard API when
available in a secure context (falling through on rejection), then strategy
2, then strategy 3, and finally resolve with `{ ok: false, method:
"blocked" }`. Every path returns a value — the function never rejects. The
returned `DomState` records scaffolding elements left attached. -/
def safeCopyText (env : ClipboardEnv) : CopyResult × DomState :=
  if env.hasClipboardApi && env.writeTextResolves then
    ({ ok := true, method := "navigator.clipboard" },
     { textareaAttached := false, spanAttached := false })
  else
    match legacyCopyStep env with
    | (some r, ta) => (r, { textareaAttached := ta, spanAttached := false })
    | (none, ta) =>
      match selectionCopyStep env with
      | (some r, sp) => (r, { textareaAttached := ta, spanAttached := sp })
      | (none, sp) =>
        ({ ok := false, method := "blocked" },
         { textareaAttached := ta, spanAttached := sp })

/-- The primary clipboard API succeeds: it is available in a secure context
and `writeText` resolves. -/
def primarySucceeds (env : ClipboardEnv) : Bool :=
  env.hasClipboardApi && env.writeTextResolves

/-- Strategy 2 succeeds: the legacy command exists, does not throw, and
returns a truthy value. -/
def legacySucceeds (env : ClipboardEnv) : Bool :=
  env.hasExecCommand && !env.exec2Throws && env.exec2Returns

/-- Strategy 3 succeeds: the legacy command exists, does not throw on the
selection-based invocation, and returns a truthy value. -/
def selectionSucceeds (env : ClipboardEnv) : Bool :=
  env.hasExecCommand && !env.exec3Throws && env.exec3Returns

/-!
Helper lemmas about the output parser.
-/

/-- Characterization of the parsing fold: the images are the sentinel lines
in order, each mapped to a PNG data URL with the first sentinel occurrence
removed; the text is the concatenation, in order, of every non-sentinel line
whose trimmed form is non-empty, each followed by a newline. -/
theorem foldl_parseStep_spec (lines : List JSStr) (imgs : List JSStr) (txt : JSStr) :
    lines.foldl parseStep (imgs, txt) =
      (imgs ++ (lines.filter startsWithSentinel).map
          (fun l => dataUrlPng ++ jsReplaceFirst sentinel [] l),
       txt ++ ((lines.filter (fun l =>
            !startsWithSentinel l && ((jsTrim l).length != 0))).map
          (fun l => l ++ ['\n'])).flatten) := by
  induction lines generalizing imgs txt with
  | nil => simp
  | cons l ls ih =>
    rw [List.foldl_cons]
    by_cases h1 : startsWithSentinel l = true
    · simp [parseStep, h1, ih, List.filter_cons]
    · rw [Bool.not_eq_true] at h1
      by_cases h2 : ((jsTrim l).length != 0) = true
      · simp [parseStep, h1, h2, ih, List.filter_cons]
      · rw [Bool.not_eq_true] at h2
        simp [parseStep, h1, h2, ih, List.filter_cons]

/-- For a line that starts with the sentinel, `line.replace("__IMG__", "")`
removes exactly that leading sentinel: the first occurrence is the prefix. -/
theorem jsReplaceFirst_strip (l : JSStr) (h : sentinel.isPrefixOf l = true) :
    jsReplaceFirst sentinel [] l = l.drop sentinel.length := by
  cases l with
  | nil => simp [jsReplaceFirst]
  | cons x xs => simp [jsReplaceFirst, h]

/-- `jsTrim` produces the empty string exactly on whitespace-only input. -/
theorem jsTrim_eq_nil_iff (l : JSStr) :
    jsTrim l = [] ↔ ∀ c ∈ l, c.isWhitespace := by
  unfold jsTrim
  rw [List.reverse_eq_nil_iff, List.dropWhile_eq_nil_iff]
  constructor
  · intro h c hc
    rw [← List.takeWhile_append_dropWhile (p := Char.isWhitespace) (l := l),
      List.mem_append] at hc
    rcases hc with hc | hc
    · exact List.mem_takeWhile_imp hc
    · exact h c (List.mem_reverse.mpr hc)
  · intro h x hx
    exact h x ((List.dropWhile_sublist _).mem (List.mem_reverse.mp hx))

/-- The source's text-line condition `line.trim().length` is truthy exactly
when the line has some non-whitespace character. -/
theorem trimCheck_eq_any (l : JSStr) :
    ((jsTrim l).length != 0) = l.any (fun c => !c.isWhitespace) := by
  rw [Bool.eq_iff_iff, bne_iff_ne, ne_eq, List.length_eq_zero, List.any_eq_true,
    jsTrim_eq_nil_iff]
  push_neg
  simp [Bool.not_eq_true]

/-!
Helper lemmas about the loader.
-/

/-- After any positive number of interleaved `loadPyodideOnce` calls, the
memo holds promise 0, exactly one initialization has been started, and every
caller was handed promise 0. -/
theorem concurrentCalls_of_pos (n : Nat) (h : 0 < n) :
    concurrentCalls n = ({ memo := some 0, started := 1 }, List.replicate n 0) := by
  induction n with
  | zero => exact absurd h (by omega)
  | succ m ih =>
    rcases Nat.eq_zero_or_pos m with h0 | hm
    · subst h0
      rfl
    · simp [concurrentCalls, ih hm, loadPyodideOnce, List.replicate_succ']

/-- When the single initialization promise rejects with `e`, every sequence
of `ensureReady` calls ends in the same stuck state: `pyRef` still null,
status `error`, message `e`, one initialization ever started, and every call
after the first observing the same memoized rejection. -/
theorem ensureReadySeq_of_failure (f : Nat → Except JSStr Nat) (e : JSStr)
    (hf : f 0 = Except.error e) (n : Nat) (h : 0 < n) :
    ensureReadySeq f n =
      ({ pyRef := none, status := .error, errMsg := e },
       { memo := some 0, started := 1 },
       List.replicate n (Except.error e)) := by
  induction n with
  | zero => exact absurd h (by omega)
  | succ m ih =>
    rcases Nat.eq_zero_or_pos m with h0 | hm
    · subst h0
      simp [ensureReadySeq, ensureReady, initialRunner, initialLoader,
        loadPyodideOnce, hf]
    · simp [ensureReadySeq, ih hm, ensureReady, loadPyodideOnce, hf,
        List.replicate_succ']

/-!
Claim theorems.
-/

/-- Claim C1, counterexample: `run` does not convert a runtime-load failure
into the result's error field — `await ensureReady()` sits before the `try`
block, so the load error rethrown by `ensureReady` propagates out of `run`
to its caller as an exception. Here a load that fails with "ScriptError"
makes `run` throw. -/
theorem run_never_throws_cex :
    run (Except.error ("ScriptError".data)) (ExecOutcome.returns []) =
      RunOutcome.thrown ("ScriptError".data) := rfl

/-- Claim C1, amended: `run(sourceText)` never throws once the runtime load
has succeeded — a successful guest execution yields the parsed result with
no error field, and a guest-execution exception is converted into an
`ExecutionResult` whose error field carries the message — but a
runtime-load failure inside `ensureReady` is rethrown and propagates out of
`run` as an exception (it is recorded only in the hook's status/errMsg
state). -/
theorem run_throws_only_for_load_failures (out buf msg e : JSStr)
    (exec : ExecOutcome) :
    run (Except.ok ()) (ExecOutcome.returns out) =
      RunOutcome.result
        { images := (parseOutput out).1, text := (parseOutput out).2,
          error := none } ∧
    run (Except.ok ()) (ExecOutcome.raises buf msg) =
      RunOutcome.result { images := [], text := [], error := some msg } ∧
    run (Except.error e) exec = RunOutcome.thrown e :=
  ⟨rfl, rfl, rfl⟩

/-- Claim C2 (confirmed): any positive number of interleaved calls to the
loader starts exactly one bootstrap-fetch-and-initialization sequence; every
caller is handed the same memoized promise 0, so however that one promise
settles, all callers observe the same eventual handle or the same eventual
failure, and no second initialization is ever in flight. -/
theorem loader_single_initialization (n : Nat) (h : 0 < n) :
    (concurrentCalls n).1.started = 1 ∧
    (concurrentCalls n).2 = List.replicate n 0 ∧
    ∀ (resolve : Nat → Except JSStr Nat), ∀ p ∈ (concurrentCalls n).2,
      resolve p = resolve 0 := by
  rw [concurrentCalls_of_pos n h]
  refine ⟨rfl, rfl, ?_⟩
  intro resolve p hp
  rw [List.eq_of_mem_replicate hp]

/-- Witness for C2 at three interleaved calls. -/
theorem loader_single_initialization_witness :
    0 < 3 ∧
      ((concurrentCalls 3).1.started = 1 ∧
        (concurrentCalls 3).2 = List.replicate 3 0 ∧
        ∀ (resolve : Nat → Except JSStr Nat), ∀ p ∈ (concurrentCalls 3).2,
          resolve p = resolve 0) :=
  ⟨by decide, loader_single_initialization 3 (by decide)⟩

/-- Claim C3, counterexample: a guest run that prints "partial" and then
raises yields an `ExecutionResult` whose text is empty — the buffered
output is discarded, not returned. The text cannot contain "partial" since
it is the empty string while "partial" is not. -/
theorem run_buffered_text_cex :
    run (Except.ok ())
        (ExecOutcome.raises ("partial\n".data)
          ("ZeroDivisionError: division by zero".data)) =
      RunOutcome.result
        { images := [], text := [],
          error := some ("ZeroDivisionError: division by zero".data) } ∧
    ("partial".data : JSStr) ≠ [] :=
  ⟨rfl, by decide⟩

/-- Claim C3, amended: when the guest raises, `run` returns an
`ExecutionResult` with empty text and images and the exception's message as
the error; the output buffered before the failure point is discarded — the
result does not depend on it at all, because the instrumented program's
stdout buffer never reaches the JavaScript catch block. -/
theorem run_raises_discards_buffered (buf buf2 msg : JSStr) :
    run (Except.ok ()) (ExecOutcome.raises buf msg) =
      RunOutcome.result { images := [], text := [], error := some msg } ∧
    run (Except.ok ()) (ExecOutcome.raises buf msg) =
      run (Except.ok ()) (ExecOutcome.raises buf2 msg) :=
  ⟨rfl, rfl⟩

/-- Claim C4 (confirmed): whenever the guest program raises, `run` returns
`{ images: [], text: "", error: message }` — empty text, empty image
sequence, and the exception's message in the error field. -/
theorem run_guest_exception_result (buf msg : JSStr) :
    run (Except.ok ()) (ExecOutcome.raises buf msg) =
      RunOutcome.result { images := [], text := [], error := some msg } :=
  rfl

/-- Claim C5, counterexample: after a first `ensureReady` call whose load
attempt fails, a second call does not retry a fresh load — only one
initialization was ever started across both calls, and the second call
observes the same memoized rejection again. -/
theorem ensureReady_no_retry_cex :
    (ensureReadySeq failingInit 2).2.1.started = 1 ∧
    (ensureReadySeq failingInit 2).2.2 =
      [Except.error ("ScriptError".data),
        Except.error ("ScriptError".data)] ∧
    (ensureReadySeq failingInit 2).1.status = Status.error :=
  ⟨rfl, rfl, rfl⟩

/-- Claim C5, amended: after a runtime-load attempt fails, later
`ensureReady` calls do not retry a fresh load: `_pyodidePromise` permanently
memoizes the rejected promise, so every later call awaits that same promise
and observes the same failure again immediately, with the hook's status set
to error and the message recorded — a failure is therefore observable and
distinct from a pending load, but recovery requires a page reload. -/
theorem ensureReady_failure_is_sticky (f : Nat → Except JSStr Nat) (e : JSStr)
    (hf : f 0 = Except.error e) (n : Nat) (hn : 0 < n) :
    (ensureReadySeq f n).2.1.started = 1 ∧
    (ensureReadySeq f n).2.2 = List.replicate n (Except.error e) ∧
    (ensureReadySeq f n).1.status = Status.error ∧
    (ensureReadySeq f n).1.errMsg = e ∧
    (ensureReadySeq f n).1.pyRef = none := by
  rw [ensureReadySeq_of_failure f e hf n hn]
  exact ⟨rfl, rfl, rfl, rfl, rfl⟩

/-- Witness for the amended C5 at two calls against an always-failing
load. -/
theorem ensureReady_failure_is_sticky_witness :
    failingInit 0 = Except.error ("ScriptError".data) ∧ 0 < 2 ∧
      ((ensureReadySeq failingInit 2).2.1.started = 1 ∧
        (ensureReadySeq failingInit 2).2.2 =
          List.replicate 2 (Except.error ("ScriptError".data)) ∧
        (ensureReadySeq failingInit 2).1.status = Status.error ∧
        (ensureReadySeq failingInit 2).1.errMsg = "ScriptError".data ∧
        (ensureReadySeq failingInit 2).1.pyRef = none) :=
  ⟨rfl, by decide,
    ensureReady_failure_is_sticky failingInit ("ScriptError".data) rfl 2 (by decide)⟩

/-- Claim C6 (confirmed): the parser's image sequence is exactly the
sentinel-prefixed lines, in order, each contributing one artifact whose
base64 payload is the line with the sentinel prefix stripped (wrapped in the
PNG data URL); sentinel lines contribute nothing to the text, whose lines
all come filtered to non-sentinel lines. Concretely, the raw line
`"__IMG__AAAA"` yields exactly one artifact with payload `"AAAA"` and empty
text. -/
theorem parse_image_records (raw : JSStr) :
    (parseOutput raw).1 =
      ((jsSplitOn '\n' raw).filter startsWithSentinel).map
        (fun l => dataUrlPng ++ l.drop sentinel.length) ∧
    (parseOutput raw).2 =
      (((jsSplitOn '\n' raw).filter (fun l =>
          !startsWithSentinel l && ((jsTrim l).length != 0))).map
        (fun l => l ++ ['\n'])).flatten ∧
    parseOutput ("__IMG__AAAA".data) =
      (["data:image/png;base64,AAAA".data], ([] : JSStr)) := by
  refine ⟨?_, ?_, by decide⟩
  · rw [parseOutput, foldl_parseStep_spec]
    simp only [List.nil_append]
    refine List.map_congr_left ?_
    intro l hl
    rw [jsReplaceFirst_strip l (List.of_mem_filter hl)]
  · rw [parseOutput, foldl_parseStep_spec]
    simp

/-- Claim C7 (confirmed): the parser's text is the concatenation, in raw
order, of every non-sentinel line whose trimmed form is non-empty, each
followed by a newline; blank lines are dropped. Concretely the raw string
`"x\n\n\ny\n"` parses to the text `"x\ny\n"` with no images. -/
theorem parse_text_lines (raw : JSStr) :
    (parseOutput raw).2 =
      (((jsSplitOn '\n' raw).filter (fun l =>
          !startsWithSentinel l && ((jsTrim l).length != 0))).map
        (fun l => l ++ ['\n'])).flatten ∧
    parseOutput ("x\n\n\ny\n".data) = (([] : List JSStr), "x\ny\n".data) := by
  refine ⟨?_, by decide⟩
  rw [parseOutput, foldl_parseStep_spec]
  simp

/-- Claim C10 (confirmed): the text keeps exactly the non-sentinel lines
containing some non-whitespace character, appended verbatim (leading and
trailing whitespace included) and newline-terminated; every whitespace-only
line — empty or made of spaces and tabs — contributes nothing. Concretely
`"a\n   \n\tb \n"` parses to the text `"a\n\tb \n"`: the space-only line is
dropped while `"\tb "` keeps its tab and trailing space. -/
theorem parse_whitespace_only_lines (raw : JSStr) :
    (parseOutput raw).2 =
      (((jsSplitOn '\n' raw).filter (fun l =>
          !startsWithSentinel l && l.any (fun c => !c.isWhitespace))).map
        (fun l => l ++ ['\n'])).flatten ∧
    parseOutput ("a\n   \n\tb \n".data) =
      (([] : List JSStr), "a\n\tb \n".data) := by
  refine ⟨?_, by decide⟩
  rw [parseOutput, foldl_parseStep_spec]
  simp only [List.nil_append]
  congr 2
  refine List.filter_congr ?_
  intro l _
  rw [trimCheck_eq_any]

/-- Claim C8 (confirmed): `safeCopyText` tries the primary clipboard API,
the legacy `execCommand` strategy, and the selection-based strategy in that
fixed order, each only when the previous is unavailable or fails, and
short-circuits on the first success with the corresponding method name; when
all three fail or throw it resolves — never rejects, the function being
total — with `{ ok: false, method: "blocked" }`, the source's literal for
the spec's `methodUsed = "none"`. -/
theorem safeCopyText_fallback_chain (env : ClipboardEnv) :
    (primarySucceeds env = true →
      safeCopyText env =
        ({ ok := true, method := "navigator.clipboard" },
         { textareaAttached := false, spanAttached := false })) ∧
    (primarySucceeds env = false → legacySucceeds env = true →
      safeCopyText env =
        ({ ok := true, method := "execCommand" },
         { textareaAttached := false, spanAttached := false })) ∧
    (primarySucceeds env = false → legacySucceeds env = false →
      selectionSucceeds env = true →
      (safeCopyText env).1 = { ok := true, method := "selection" }) ∧
    (primarySucceeds env = false → legacySucceeds env = false →
      selectionSucceeds env = false →
      (safeCopyText env).1 = { ok := false, method := "blocked" }) := by
  obtain ⟨a, b, c, d, e, f, g⟩ := env
  revert a b c d e f g
  decide

/-- Witness for C8 in a host with neither clipboard API nor legacy copy
command: all strategies fail and the outcome is `{ ok: false, method:
"blocked" }`. -/
theorem safeCopyText_fallback_chain_witness :
    (safeCopyText
        { hasClipboardApi := false, writeTextResolves := false,
          hasExecCommand := false, exec2Throws := false, exec2Returns := false,
          exec3Throws := false, exec3Returns := false }).1 =
      { ok := false, method := "blocked" } :=
  (safeCopyText_fallback_chain
      { hasClipboardApi := false, writeTextResolves := false,
        hasExecCommand := false, exec2Throws := false, exec2Returns := false,
        exec3Throws := false, exec3Returns := false }).2.2.2
    (by decide) (by decide) (by decide)

/-- Claim C9: the code fails the claim on the exception exit path. In a host
where `document.execCommand("copy")` throws (e.g. blocked by permissions
policy), the `removeChild` calls on lines 44 and 61 are skipped, so
`safeCopyText` returns with both the off-screen textarea and the transient
span still attached to `document.body`. -/
theorem safeCopyText_leaks_on_throw :
    safeCopyText
        { hasClipboardApi := false, writeTextResolves := false,
          hasExecCommand := true, exec2Throws := true, exec2Returns := false,
          exec3Throws := true, exec3Returns := false } =
      ({ ok := false, method := "blocked" },
       { textareaAttached := true, spanAttached := true }) := by
  decide

end Chapter05
